import Mathlib

/-!
Shallow embedding of `src/app.py` from the k3s-setup repository: a Flask
endpoint that builds a Docker image from an uploaded Dockerfile, saves it as
a tarball, imports it into containerd, deploys it to k3s, waits, deletes the
deployment and cleans up the images.  External effects (subprocess runs,
Kubernetes API calls, the temporary directory) are modelled by an oracle of
outcomes threaded through the translated control flow, together with a trace
of the external calls each run performs.
-/

namespace K3sApp

/-- Result of a completed `subprocess.run` call: exit code and stderr text. -/
structure ProcResult where
  returncode : Int
  stderr : String
deriving DecidableEq, Repr

/-- Outcome of attempting a `subprocess.run` call: either the call completed
with a `ProcResult`, or the attempt itself raised an exception. -/
inductive CmdOutcome where
  | result (r : ProcResult)
  | exc (msg : String)
deriving DecidableEq, Repr

/-- The data of a Kubernetes `ApiException`: HTTP status and reason. -/
structure ApiErr where
  status : Nat
  reason : String
deriving DecidableEq, Repr

/-- Outcome of a Kubernetes API call: success, or an `ApiException`. -/
inductive ApiOutcome where
  | ok
  | apiExc (e : ApiErr)
deriving DecidableEq, Repr

/-- Python exceptions that flow through the handler: `ValueError` and
`RuntimeError` raised by the helper functions. -/
inductive PyExc where
  | valueError (msg : String)
  | runtimeError (msg : String)
deriving DecidableEq, Repr

/-- `str(e)` on the exceptions raised by the helpers. -/
def PyExc.str : PyExc → String
  | .valueError m => m
  | .runtimeError m => m

/-- The external calls a run can make, recorded in order. -/
inductive Event where
  | mkTempDir
  | saveDockerfile
  | dockerBuild
  | dockerSave
  | ctrImport
  | apiCreate (name : String)
  | apiRead (name : String)
  | apiDelete (name : String)
  | dockerRmi (image : String)
  | ctrRemoveImage (image : String)
  | sleep (seconds : Nat)
  | rmTempDir
deriving DecidableEq, Repr

/-- A broken-down local time at second resolution, as `time.strftime`
consumes (the fields of `time.localtime()`). -/
structure TimeTuple where
  year : Nat
  month : Nat
  day : Nat
  hour : Nat
  minute : Nat
  second : Nat
deriving DecidableEq, Repr

/-- Ranges within which the formatted fields occupy their fixed widths
(real calendar values are well inside these bounds). -/
def TimeTuple.Valid (t : TimeTuple) : Prop :=
  1000 ≤ t.year ∧ t.year ≤ 9999 ∧ t.month ≤ 99 ∧ t.day ≤ 99 ∧
    t.hour ≤ 99 ∧ t.minute ≤ 99 ∧ t.second ≤ 99

instance (t : TimeTuple) : Decidable t.Valid := by
  unfold TimeTuple.Valid; infer_instance

/-- The decimal digit character for `n % 10`. -/
def digitChar (n : Nat) : Char := Char.ofNat (48 + n % 10)

/-- Zero-padded two-digit decimal rendering (faithful for `n ≤ 99`). -/
def pad2 (n : Nat) : List Char := [digitChar (n / 10), digitChar n]

/-- Zero-padded four-digit decimal rendering (faithful for `n ≤ 9999`). -/
def pad4 (n : Nat) : List Char :=
  [digitChar (n / 1000), digitChar (n / 100), digitChar (n / 10), digitChar n]

/-- Model of `time.strftime("%Y%m%d%H%M%S")` applied to a broken-down time. -/
def strftimeYmdHMS (t : TimeTuple) : String :=
  String.mk (pad4 t.year ++ pad2 t.month ++ pad2 t.day ++
    pad2 t.hour ++ pad2 t.minute ++ pad2 t.second)

/-- `image_name = f"dockerfile-app-{image_time_stamp}"` (app.py line 127). -/
def imageNameOf (t : TimeTuple) : String :=
  "dockerfile-app-" ++ strftimeYmdHMS t

/-- `deployment_name = f"test-deploy-{image_time_stamp}"` (app.py line 162). -/
def deploymentNameOf (t : TimeTuple) : String :=
  "test-deploy-" ++ strftimeYmdHMS t

/-- The character class `[a-zA-Z0-9_\-]` of the validation pattern. -/
def validNameChar (c : Char) : Bool :=
  (('a' ≤ c) && (c ≤ 'z')) || (('A' ≤ c) && (c ≤ 'Z')) ||
    (('0' ≤ c) && (c ≤ '9')) || (c == '_') || (c == '-')

/-- Model of Python `re.match(r"^[a-zA-Z0-9_\-]+$", s) is not None`.
Python `$` matches at the end of the string or just before a newline at
the end of the string, so a single trailing newline after a non-empty run
of class characters is accepted. -/
def reMatchNamePattern (s : String) : Bool :=
  let cs := s.toList
  let body := if cs.getLast? == some '\x0a' then cs.dropLast else cs
  (!body.isEmpty) && body.all validNameChar

/-- Oracle for the Kubernetes API calls a run can make through
`apps_v1_api`: `create_namespaced_deployment`, `read_namespaced_deployment`
and `delete_namespaced_deployment`. -/
structure ClusterOracle where
  createResult : ApiOutcome
  readResult : ApiOutcome
  deleteResult : ApiOutcome
deriving DecidableEq, Repr

/-- Translation of `deploy_to_k3s(image_name, deployment_name)`
(app.py lines 27-64).  Validates the inputs, then attempts
`create_namespaced_deployment`; an `ApiException` with status 409 is
reclassified as an informational message, any other `ApiException` is
re-raised as `RuntimeError`.  Returns the result (message or raised
exception) together with the list of cluster calls made. -/
def deploy_to_k3s (o : ClusterOracle) (image_name deployment_name : String) :
    Except PyExc String × List Event :=
  if image_name = "" then
    (.error (.valueError "Image name must be provided."), [])
  else if deployment_name = "" then
    (.error (.valueError "Deployment name must be provided."), [])
  else if !reMatchNamePattern deployment_name then
    (.error (.valueError "Deployment name contains invalid characters."), [])
  else
    match o.createResult with
    | .ok =>
        (.ok ("Deployment '" ++ deployment_name ++
          "' successfully created with image '" ++ image_name ++ "'."),
         [.apiCreate deployment_name])
    | .apiExc e =>
        if e.status = 409 then
          (.ok ("Deployment '" ++ deployment_name ++ "' already exists."),
           [.apiCreate deployment_name])
        else
          (.error (.runtimeError ("Kubernetes API error: " ++ e.reason)),
           [.apiCreate deployment_name])

/-- Translation of `delete_deployment(deployment_name)` (app.py lines
66-78).  Reads the deployment then deletes it, both inside one `try`;
an `ApiException` with status 404 from either call becomes an
informational message, any other `ApiException` is re-raised as
`RuntimeError`. -/
def delete_deployment (o : ClusterOracle) (deployment_name : String) :
    Except PyExc String × List Event :=
  if deployment_name = "" then
    (.error (.valueError "Deployment name must be provided."), [])
  else
    match o.readResult with
    | .apiExc e =>
        if e.status = 404 then
          (.ok ("Deployment '" ++ deployment_name ++ "' does not exist."),
           [.apiRead deployment_name])
        else
          (.error (.runtimeError ("Kubernetes API error: " ++ e.reason)),
           [.apiRead deployment_name])
    | .ok =>
        match o.deleteResult with
        | .ok =>
            (.ok ("Deployment '" ++ deployment_name ++ "' successfully deleted."),
             [.apiRead deployment_name, .apiDelete deployment_name])
        | .apiExc e =>
            if e.status = 404 then
              (.ok ("Deployment '" ++ deployment_name ++ "' does not exist."),
               [.apiRead deployment_name, .apiDelete deployment_name])
            else
              (.error (.runtimeError ("Kubernetes API error: " ++ e.reason)),
               [.apiRead deployment_name, .apiDelete deployment_name])

/-- Oracle for the two image-removal commands of `cleanup_function`. -/
structure CleanupOracle where
  dockerRmiOutcome : CmdOutcome
  ctrRemoveOutcome : CmdOutcome
deriving DecidableEq, Repr

/-- The message the first `try` block of `cleanup_function` appends for the
`docker rmi -f` attempt (app.py lines 84-94). -/
def dockerRmiMessage (image_name : String) : CmdOutcome → String
  | .result r =>
      if r.returncode = 0 then
        "Docker image '" ++ image_name ++ "' successfully removed."
      else
        "Failed to remove Docker image '" ++ image_name ++ "': " ++ r.stderr
  | .exc m => "Error removing Docker image: " ++ m

/-- The message the second `try` block of `cleanup_function` appends for the
`ctr images remove` attempt (app.py lines 96-106). -/
def ctrRemoveMessage (image_name : String) : CmdOutcome → String
  | .result r =>
      if r.returncode = 0 then
        "Containerd image '" ++ image_name ++ "' successfully removed."
      else
        "Failed to remove containerd image '" ++ image_name ++ "': " ++ r.stderr
  | .exc m => "Error removing containerd image: " ++ m

/-- Translation of `cleanup_function(image_name)` (app.py lines 80-108).
The `docker rmi -f` attempt and the `ctr images remove` attempt each sit in
their own `try`/`except`, so both are always attempted, each outcome is
appended to `cleanup_messages`, and the collected messages are joined with
`"; "`.  The function never raises. -/
def cleanup_function (o : CleanupOracle) (image_name : String) :
    String × List Event :=
  let msg1 :=
    match o.dockerRmiOutcome with
    | .result r =>
        if r.returncode = 0 then
          "Docker image '" ++ image_name ++ "' successfully removed."
        else
          "Failed to remove Docker image '" ++ image_name ++ "': " ++ r.stderr
    | .exc m => "Error removing Docker image: " ++ m
  let msg2 :=
    match o.ctrRemoveOutcome with
    | .result r =>
        if r.returncode = 0 then
          "Containerd image '" ++ image_name ++ "' successfully removed."
        else
          "Failed to remove containerd image '" ++ image_name ++ "': " ++ r.stderr
    | .exc m => "Error removing containerd image: " ++ m
  (msg1 ++ "; " ++ msg2, [.dockerRmi image_name, .ctrRemoveImage image_name])

/-- Oracle for one request to the `/build-and-deploy` endpoint: the request
shape, the broken-down time `time.strftime` observes, the outcome of every
external call the run could make, and the configured wait duration. -/
structure Oracle where
  hasDockerfileField : Bool
  filename : String
  saveExc : Option String
  timeTuple : TimeTuple
  buildOutcome : CmdOutcome
  saveOutcome : CmdOutcome
  importOutcome : CmdOutcome
  cluster : ClusterOracle
  cleanup : CleanupOracle
  deployWaitTime : Nat
deriving DecidableEq, Repr

/-- The two JSON response-body shapes the handler produces: a flat string
`details` (error paths) or the six-message map of the success path. -/
inductive Details where
  | text (s : String)
  | stageMap (docker_build tarball_save ctr_import deployment_message
      deletion_message cleanup_message : String)
deriving DecidableEq, Repr

/-- An HTTP response: status code plus the JSON body fields that occur. -/
structure Response where
  status : Nat
  error : Option String
  message : Option String
  details : Option Details
deriving DecidableEq, Repr

/-- Either the handler returned a response, or an exception escaped it
(only possible from `dockerfile.save`, which sits outside the `try`). -/
inductive HandlerResult where
  | response (r : Response)
  | uncaught (msg : String)
deriving DecidableEq, Repr

/-- The body of the `with tempfile.TemporaryDirectory()` block of
`build_and_deploy` (app.py lines 122-188): save the Dockerfile, then the
`try` block running the six stages, whose exceptions (`ValueError`,
`RuntimeError` from the helpers) are caught and turned into a generic 500. -/
def pipelineBody (o : Oracle) : HandlerResult × List Event :=
  match o.saveExc with
  | some m => (.uncaught m, [.saveDockerfile])
  | none =>
    let image_name := imageNameOf o.timeTuple
    match o.buildOutcome with
    | .exc m =>
        (.response ⟨500, some "An unexpected error occurred.", none, some (.text m)⟩,
         [.saveDockerfile, .dockerBuild])
    | .result build_result =>
      if build_result.returncode ≠ 0 then
        (.response ⟨500, some "Docker build failed.", none,
           some (.text build_result.stderr)⟩,
         [.saveDockerfile, .dockerBuild])
      else
        match o.saveOutcome with
        | .exc m =>
            (.response ⟨500, some "An unexpected error occurred.", none,
               some (.text m)⟩,
             [.saveDockerfile, .dockerBuild, .dockerSave])
        | .result save_result =>
          if save_result.returncode ≠ 0 then
            (.response ⟨500, some "Docker save failed.", none,
               some (.text save_result.stderr)⟩,
             [.saveDockerfile, .dockerBuild, .dockerSave])
          else
            match o.importOutcome with
            | .exc m =>
                (.response ⟨500, some "An unexpected error occurred.", none,
                   some (.text m)⟩,
                 [.saveDockerfile, .dockerBuild, .dockerSave, .ctrImport])
            | .result import_result =>
              if import_result.returncode ≠ 0 then
                (.response ⟨500, some "Containerd import failed.", none,
                   some (.text import_result.stderr)⟩,
                 [.saveDockerfile, .dockerBuild, .dockerSave, .ctrImport])
              else
                let deployment_name := deploymentNameOf o.timeTuple
                match deploy_to_k3s o.cluster image_name deployment_name with
                | (.error e, ev1) =>
                    (.response ⟨500, some "An unexpected error occurred.", none,
                       some (.text e.str)⟩,
                     [.saveDockerfile, .dockerBuild, .dockerSave, .ctrImport] ++ ev1)
                | (.ok deployment_message, ev1) =>
                  match delete_deployment o.cluster deployment_name with
                  | (.error e, ev2) =>
                      (.response ⟨500, some "An unexpected error occurred.", none,
                         some (.text e.str)⟩,
                       [.saveDockerfile, .dockerBuild, .dockerSave, .ctrImport] ++
                         ev1 ++ [.sleep o.deployWaitTime] ++ ev2)
                  | (.ok deletion_message, ev2) =>
                    let cleaned := cleanup_function o.cleanup image_name
                    (.response ⟨200, none,
                       some "Image built, saved, imported into containerd, deployed, and cleaned up successfully.",
                       some (.stageMap "Image built successfully."
                         "Image saved as tarball successfully."
                         "Image loaded into containerd successfully."
                         deployment_message deletion_message cleaned.1)⟩,
                     [.saveDockerfile, .dockerBuild, .dockerSave, .ctrImport] ++
                       ev1 ++ [.sleep o.deployWaitTime] ++ ev2 ++ cleaned.2)

/-- Translation of the `/build-and-deploy` handler (app.py lines 110-188).
The form-field checks run before the temporary directory is allocated;
the directory is created on entry to the `with` block and removed on every
exit from it, including the early `return`s and the exception path. -/
def build_and_deploy (o : Oracle) : HandlerResult × List Event :=
  if o.hasDockerfileField = false then
    (.response ⟨400, some "Dockerfile not provided.", none, none⟩, [])
  else if o.filename = "" then
    (.response ⟨400, some "Empty Dockerfile provided.", none, none⟩, [])
  else
    ((pipelineBody o).1, .mkTempDir :: ((pipelineBody o).2 ++ [.rmTempDir]))

/-- A fixed broken-down time used for concrete runs. -/
def t0 : TimeTuple := ⟨2024, 1, 2, 3, 4, 5⟩

/-- A request oracle on which every stage succeeds, with a zero wait. -/
def successOracle : Oracle :=
  ⟨true, "Dockerfile", none, t0, .result ⟨0, ""⟩, .result ⟨0, ""⟩,
   .result ⟨0, ""⟩, ⟨.ok, .ok, .ok⟩, ⟨.result ⟨0, ""⟩, .result ⟨0, ""⟩⟩, 0⟩

/-- Like `successOracle` but `read_namespaced_deployment` fails with a
non-404 `ApiException` during the reaping stage. -/
def reapFailOracle : Oracle :=
  { successOracle with cluster := ⟨.ok, .apiExc ⟨500, "Internal Server Error"⟩, .ok⟩ }

/-- Like `successOracle` but the `docker build` exits non-zero. -/
def buildFailOracle : Oracle :=
  { successOracle with buildOutcome := .result ⟨1, "no such file"⟩ }

/-- Like `successOracle` but the request carries no `dockerfile` field. -/
def noFieldOracle : Oracle :=
  { successOracle with hasDockerfileField := false }

/-- Like `successOracle` but deploy hits a 409 conflict and delete a 404. -/
def conflictOracle : Oracle :=
  { successOracle with
      cluster := ⟨.apiExc ⟨409, "Conflict"⟩, .apiExc ⟨404, "Not Found"⟩, .ok⟩ }

/-- Like `successOracle` but both image-removal attempts fail. -/
def cleanupFailOracle : Oracle :=
  { successOracle with
      cleanup := ⟨.result ⟨1, "image in use"⟩, .exc "ctr missing"⟩ }

example : reMatchNamePattern "test-deploy-20240101" = true := by decide

example : reMatchNamePattern "has space" = false := by decide

example : reMatchNamePattern "abc\n" = true := by decide

example : reMatchNamePattern "\n" = false := by decide

example : reMatchNamePattern "" = false := by decide

example : validNameChar (digitChar 7) = true := by decide

example : imageNameOf ⟨2024, 1, 2, 3, 4, 5⟩ = "dockerfile-app-20240102030405" := by decide

theorem validNameChar_digitChar (n : Nat) : validNameChar (digitChar n) = true := by
  have h : n % 10 < 10 := Nat.mod_lt _ (by norm_num)
  unfold digitChar
  set m := n % 10 with hm
  interval_cases m <;> decide

theorem digitChar_inj {a b : Nat} (h : digitChar a = digitChar b) :
    a % 10 = b % 10 := by
  have ha : a % 10 < 10 := Nat.mod_lt _ (by norm_num)
  have hb : b % 10 < 10 := Nat.mod_lt _ (by norm_num)
  unfold digitChar at h
  set x := a % 10 with hx
  set y := b % 10 with hy
  interval_cases x <;> interval_cases y <;> revert h <;> decide

theorem pad2_inj {a b : Nat} (ha : a ≤ 99) (hb : b ≤ 99) (h : pad2 a = pad2 b) :
    a = b := by
  simp only [pad2, List.cons.injEq, and_true] at h
  obtain ⟨h1, h2⟩ := h
  have e1 := digitChar_inj h1
  have e2 := digitChar_inj h2
  omega

theorem pad4_inj {a b : Nat} (ha : a ≤ 9999) (hb : b ≤ 9999) (h : pad4 a = pad4 b) :
    a = b := by
  simp only [pad4, List.cons.injEq, and_true] at h
  obtain ⟨h1, h2, h3, h4⟩ := h
  have e1 := digitChar_inj h1
  have e2 := digitChar_inj h2
  have e3 := digitChar_inj h3
  have e4 := digitChar_inj h4
  omega

theorem strftimeYmdHMS_inj {t1 t2 : TimeTuple} (h1 : t1.Valid) (h2 : t2.Valid)
    (h : strftimeYmdHMS t1 = strftimeYmdHMS t2) : t1 = t2 := by
  obtain ⟨y1, mo1, d1, hh1, mi1, s1⟩ := t1
  obtain ⟨y2, mo2, d2, hh2, mi2, s2⟩ := t2
  obtain ⟨a1, a2, a3, a4, a5, a6, a7⟩ := h1
  obtain ⟨b1, b2, b3, b4, b5, b6, b7⟩ := h2
  have hd := congrArg String.data h
  simp only [strftimeYmdHMS] at hd
  have h8 := List.append_inj' hd (by simp [pad2])
  have h7 := List.append_inj' h8.1 (by simp [pad2])
  have h6 := List.append_inj' h7.1 (by simp [pad2])
  have h5 := List.append_inj' h6.1 (by simp [pad2])
  have h4 := List.append_inj' h5.1 (by simp [pad2])
  simp only [TimeTuple.mk.injEq]
  exact ⟨pad4_inj a2 b2 h4.1, pad2_inj a3 b3 h4.2, pad2_inj a4 b4 h5.2,
    pad2_inj a5 b5 h6.2, pad2_inj a6 b6 h7.2, pad2_inj a7 b7 h8.2⟩

theorem strftimeYmdHMS_all_valid (t : TimeTuple) :
    (strftimeYmdHMS t).data.all validNameChar = true := by
  simp [strftimeYmdHMS, pad4, pad2, validNameChar_digitChar]

theorem imageNameOf_all_valid (t : TimeTuple) :
    (imageNameOf t).data.all validNameChar = true := by
  have hs := strftimeYmdHMS_all_valid t
  simp only [imageNameOf, String.data_append, List.all_append, hs, Bool.and_true]
  decide

theorem deploymentNameOf_all_valid (t : TimeTuple) :
    (deploymentNameOf t).data.all validNameChar = true := by
  have hs := strftimeYmdHMS_all_valid t
  simp only [deploymentNameOf, String.data_append, List.all_append, hs, Bool.and_true]
  decide

theorem imageNameOf_data_ne_nil (t : TimeTuple) : (imageNameOf t).data ≠ [] := by
  rw [imageNameOf, String.data_append]
  intro h
  rcases List.append_eq_nil.mp h with ⟨ha, _⟩
  exact absurd ha (by decide)

theorem deploymentNameOf_data_ne_nil (t : TimeTuple) :
    (deploymentNameOf t).data ≠ [] := by
  rw [deploymentNameOf, String.data_append]
  intro h
  rcases List.append_eq_nil.mp h with ⟨ha, _⟩
  exact absurd ha (by decide)

theorem imageNameOf_ne_empty (t : TimeTuple) : ¬ (imageNameOf t = "") := by
  intro h
  exact imageNameOf_data_ne_nil t (by rw [h])

theorem deploymentNameOf_ne_empty (t : TimeTuple) : ¬ (deploymentNameOf t = "") := by
  intro h
  exact deploymentNameOf_data_ne_nil t (by rw [h])

/-- A string all of whose characters lie in the restricted class, and which
is non-empty, matches the validation pattern. -/
theorem reMatch_of_all_valid (s : String) (h1 : s.data ≠ [])
    (h2 : s.data.all validNameChar = true) : reMatchNamePattern s = true := by
  unfold reMatchNamePattern
  simp only [String.toList]
  by_cases hl : s.data.getLast? = some '\x0a'
  · have hmem : '\x0a' ∈ s.data := List.mem_of_getLast?_eq_some hl
    have := (List.all_eq_true.mp h2) _ hmem
    simp [validNameChar] at this
  · have : (s.data.getLast? == some '\x0a') = false := by
      simpa using hl
    simp [this, h2, List.isEmpty_iff, h1]

theorem reMatch_deploymentNameOf (t : TimeTuple) :
    reMatchNamePattern (deploymentNameOf t) = true :=
  reMatch_of_all_valid _ (deploymentNameOf_data_ne_nil t)
    (deploymentNameOf_all_valid t)

/-- A character outside the class that is not a newline forces the
validation pattern to fail, wherever it occurs in the string. -/
theorem reMatch_false_of_bad_char {s : String} {c : Char} (hc : c ∈ s.data)
    (hv : validNameChar c = false) (hn : c ≠ '\x0a') :
    reMatchNamePattern s = false := by
  unfold reMatchNamePattern
  simp only [String.toList, Bool.and_eq_false_iff]
  by_cases hl : s.data.getLast? = some '\x0a'
  · obtain ⟨ys, hys⟩ := List.getLast?_eq_some_iff.mp hl
    have hbody : s.data.dropLast = ys := by
      rw [hys]; simp
    have hcys : c ∈ ys := by
      rw [hys] at hc
      rcases List.mem_append.mp hc with h | h
      · exact h
      · simp at h; exact absurd h hn
    right
    rw [hl]
    simp only [beq_self_eq_true, if_true, hbody]
    exact List.all_eq_false.mpr ⟨c, hcys, by simp [hv]⟩
  · have hb : (s.data.getLast? == some '\x0a') = false := by simpa using hl
    right
    rw [hb]
    simp only [Bool.false_eq_true, if_false]
    exact List.all_eq_false.mpr ⟨c, hc, by simp [hv]⟩

/-- C4: for every request in which the `dockerfile` form field is absent or
its filename is the empty string, the endpoint returns HTTP 400 with a JSON
error object before any external tool is invoked: the run's trace of
external calls is empty, so zero build, save, import, deploy, or delete
calls occur. -/
theorem C4_reject_before_any_tool (o : Oracle)
    (h : o.hasDockerfileField = false ∨ o.filename = "") :
    (∃ msg, (build_and_deploy o).1 = .response ⟨400, some msg, none, none⟩) ∧
      (build_and_deploy o).2 = [] := by
  unfold build_and_deploy
  rcases h with h | h
  · simp [h]
  · by_cases hf : o.hasDockerfileField = false <;> simp [h, hf]

/-- Witness for C4 at a concrete request with no `dockerfile` field. -/
theorem C4_witness :
    (noFieldOracle.hasDockerfileField = false ∨ noFieldOracle.filename = "") ∧
    (∃ msg, (build_and_deploy noFieldOracle).1 = .response ⟨400, some msg, none, none⟩) ∧
      (build_and_deploy noFieldOracle).2 = [] :=
  ⟨Or.inl rfl, C4_reject_before_any_tool noFieldOracle (Or.inl rfl)⟩

/-- C2: if the `docker build` command exits non-zero, the response is HTTP
500 with error text "Docker build failed." and a details field carrying the
build's stderr verbatim, and no `docker save`, `ctr import`, deploy or
delete call is made in that run (the trace holds only the staging steps and
the build attempt). -/
theorem C2_build_failure_short_circuits (o : Oracle) (br : ProcResult)
    (hf : o.hasDockerfileField = true) (hn : ¬ (o.filename = ""))
    (hs : o.saveExc = none) (hb : o.buildOutcome = .result br)
    (hbr : ¬ (br.returncode = 0)) :
    (build_and_deploy o).1 =
      .response ⟨500, some "Docker build failed.", none, some (.text br.stderr)⟩ ∧
    (build_and_deploy o).2 = [.mkTempDir, .saveDockerfile, .dockerBuild, .rmTempDir] ∧
    Event.dockerSave ∉ (build_and_deploy o).2 ∧
    Event.ctrImport ∉ (build_and_deploy o).2 ∧
    (∀ n, Event.apiCreate n ∉ (build_and_deploy o).2) ∧
    (∀ n, Event.apiRead n ∉ (build_and_deploy o).2) ∧
    (∀ n, Event.apiDelete n ∉ (build_and_deploy o).2) := by
  have key : build_and_deploy o =
      (.response ⟨500, some "Docker build failed.", none, some (.text br.stderr)⟩,
       [.mkTempDir, .saveDockerfile, .dockerBuild, .rmTempDir]) := by
    unfold build_and_deploy pipelineBody
    simp [hf, hn, hs, hb, hbr]
  simp [key]

/-- Witness for C2 at a concrete run whose build exits 1 with stderr
"no such file". -/
theorem C2_witness :
    buildFailOracle.hasDockerfileField = true ∧
    ¬ (buildFailOracle.filename = "") ∧
    buildFailOracle.saveExc = none ∧
    buildFailOracle.buildOutcome = .result ⟨1, "no such file"⟩ ∧
    ¬ ((1 : Int) = 0) ∧
    (build_and_deploy buildFailOracle).1 =
      .response ⟨500, some "Docker build failed.", none, some (.text "no such file")⟩ := by
  refine ⟨rfl, by decide, rfl, rfl, by decide, ?_⟩
  exact (C2_build_failure_short_circuits buildFailOracle ⟨1, "no such file"⟩
    rfl (by decide) rfl rfl (by decide)).1

/-- C8: the staging working directory allocated for a run is removed on
every exit path of the run — whenever the trace records the directory's
creation, it also records its removal, for every combination of stage
outcomes (success, terminal stage failure, or an exception escaping the
handler). -/
theorem C8_tempdir_always_removed (o : Oracle)
    (h : Event.mkTempDir ∈ (build_and_deploy o).2) :
    Event.rmTempDir ∈ (build_and_deploy o).2 := by
  unfold build_and_deploy at h ⊢
  by_cases h1 : o.hasDockerfileField = false
  · simp [h1] at h
  · by_cases h2 : o.filename = ""
    · simp [h1, h2] at h
    · simp [h1, h2]

/-- Witness for C8 at a concrete fully successful run. -/
theorem C8_witness :
    Event.mkTempDir ∈ (build_and_deploy successOracle).2 ∧
      Event.rmTempDir ∈ (build_and_deploy successOracle).2 :=
  ⟨by decide, C8_tempdir_always_removed successOracle (by decide)⟩

/-- C9: `cleanup_function` always attempts both removals — `docker rmi -f`
and `ctr images remove`, in that order, whatever the first attempt's
outcome — captures each attempt's outcome (success, non-zero exit, or
exception) as the corresponding message, and returns the two messages
joined with "; "; it is a total function into `String`, so it never
raises. -/
theorem C9_cleanup_attempts_both_and_never_raises
    (o : CleanupOracle) (image_name : String) :
    (cleanup_function o image_name).2 =
      [.dockerRmi image_name, .ctrRemoveImage image_name] ∧
    (cleanup_function o image_name).1 =
      dockerRmiMessage image_name o.dockerRmiOutcome ++ "; " ++
        ctrRemoveMessage image_name o.ctrRemoveOutcome := by
  obtain ⟨d, c⟩ := o
  cases d <;> cases c <;>
    simp [cleanup_function, dockerRmiMessage, ctrRemoveMessage]

theorem deploy_to_k3s_ok (o : ClusterOracle) (t : TimeTuple)
    (hc : o.createResult = .ok) :
    deploy_to_k3s o (imageNameOf t) (deploymentNameOf t) =
      (.ok ("Deployment '" ++ deploymentNameOf t ++
         "' successfully created with image '" ++ imageNameOf t ++ "'."),
       [.apiCreate (deploymentNameOf t)]) := by
  unfold deploy_to_k3s
  rw [if_neg (imageNameOf_ne_empty t), if_neg (deploymentNameOf_ne_empty t),
    reMatch_deploymentNameOf t, hc]
  simp

theorem deploy_to_k3s_conflict (o : ClusterOracle) (t : TimeTuple) (r : String)
    (hc : o.createResult = .apiExc ⟨409, r⟩) :
    deploy_to_k3s o (imageNameOf t) (deploymentNameOf t) =
      (.ok ("Deployment '" ++ deploymentNameOf t ++ "' already exists."),
       [.apiCreate (deploymentNameOf t)]) := by
  unfold deploy_to_k3s
  rw [if_neg (imageNameOf_ne_empty t), if_neg (deploymentNameOf_ne_empty t),
    reMatch_deploymentNameOf t, hc]
  simp

theorem deploy_to_k3s_succeeds (o : ClusterOracle) (t : TimeTuple)
    (hd : o.createResult = .ok ∨
      ∃ e, o.createResult = .apiExc e ∧ e.status = 409) :
    ∃ dm, deploy_to_k3s o (imageNameOf t) (deploymentNameOf t) =
      (.ok dm, [.apiCreate (deploymentNameOf t)]) := by
  rcases hd with hc | ⟨e, hc, h409⟩
  · exact ⟨_, deploy_to_k3s_ok o t hc⟩
  · obtain ⟨s9, r9⟩ := e
    simp only at h409
    subst h409
    exact ⟨_, deploy_to_k3s_conflict o t r9 hc⟩

theorem delete_deployment_ok (o : ClusterOracle) (t : TimeTuple)
    (hr : o.readResult = .ok) (hd : o.deleteResult = .ok) :
    delete_deployment o (deploymentNameOf t) =
      (.ok ("Deployment '" ++ deploymentNameOf t ++ "' successfully deleted."),
       [.apiRead (deploymentNameOf t), .apiDelete (deploymentNameOf t)]) := by
  unfold delete_deployment
  rw [if_neg (deploymentNameOf_ne_empty t), hr, hd]

theorem delete_deployment_read404 (o : ClusterOracle) (t : TimeTuple) (r : String)
    (hr : o.readResult = .apiExc ⟨404, r⟩) :
    delete_deployment o (deploymentNameOf t) =
      (.ok ("Deployment '" ++ deploymentNameOf t ++ "' does not exist."),
       [.apiRead (deploymentNameOf t)]) := by
  unfold delete_deployment
  rw [if_neg (deploymentNameOf_ne_empty t), hr]
  simp

theorem delete_deployment_readFail (o : ClusterOracle) (t : TimeTuple) (e : ApiErr)
    (hr : o.readResult = .apiExc e) (h404 : ¬ (e.status = 404)) :
    delete_deployment o (deploymentNameOf t) =
      (.error (.runtimeError ("Kubernetes API error: " ++ e.reason)),
       [.apiRead (deploymentNameOf t)]) := by
  unfold delete_deployment
  rw [if_neg (deploymentNameOf_ne_empty t), hr]
  simp [h404]

theorem delete_deployment_events (o : ClusterOracle) (t : TimeTuple) :
    ∃ res ev2, delete_deployment o (deploymentNameOf t) =
      (res, .apiRead (deploymentNameOf t) :: ev2) := by
  unfold delete_deployment
  rw [if_neg (deploymentNameOf_ne_empty t)]
  cases o.readResult with
  | apiExc e => by_cases h : e.status = 404 <;> simp [h]
  | ok =>
    cases o.deleteResult with
    | ok => simp
    | apiExc e => by_cases h : e.status = 404 <;> simp [h]

/-- C5 counterexample: the deployment name "abc\n" contains a newline — a
character outside letters, digits, hyphen and underscore — yet the deployer
does not fail with a validation error: it proceeds to the cluster API call
and returns the success message, because Python's `$` also matches just
before a trailing newline. -/
theorem C5_counterexample :
    ('\x0a' ∈ ("abc\n" : String).data ∧ validNameChar '\x0a' = false) ∧
    (deploy_to_k3s ⟨.ok, .ok, .ok⟩ "img" "abc\n").2 = [.apiCreate "abc\n"] ∧
    (deploy_to_k3s ⟨.ok, .ok, .ok⟩ "img" "abc\n").1 =
      .ok ("Deployment '" ++ "abc\n" ++
        "' successfully created with image '" ++ "img" ++ "'.") := by
  exact ⟨⟨by decide, by decide⟩, by decide, rfl⟩

/-- C5 (amended): a call of the deployer with an empty image name, an empty
deployment name, or a deployment name rejected by the validation pattern
fails with a `ValueError` before making any cluster API call; the pattern
rejects every name containing a character outside letters, digits, hyphen
and underscore, except that a single trailing newline after an otherwise
valid name is accepted (Python `$` semantics); in particular a deployment
name containing a space is always rejected. -/
theorem C5_validation_rejects_before_cluster_call
    (o : ClusterOracle) (image_name deployment_name : String) :
    ((image_name = "" ∨ deployment_name = "" ∨
        reMatchNamePattern deployment_name = false) →
      (∃ m, (deploy_to_k3s o image_name deployment_name).1 =
          .error (.valueError m)) ∧
        (deploy_to_k3s o image_name deployment_name).2 = []) ∧
    (' ' ∈ deployment_name.data → reMatchNamePattern deployment_name = false) := by
  constructor
  · intro h
    unfold deploy_to_k3s
    by_cases h1 : image_name = ""
    · simp [h1]
    · by_cases h2 : deployment_name = ""
      · simp [h1, h2]
      · rcases h with h | h | h
        · exact absurd h h1
        · exact absurd h h2
        · simp [h1, h2, h]
  · intro hsp
    exact reMatch_false_of_bad_char hsp (by decide) (by decide)

/-- Witness for C5 (amended) at the concrete deployment name "a b". -/
theorem C5_witness :
    (' ' ∈ ("a b" : String).data) ∧
    reMatchNamePattern "a b" = false ∧
    (∃ m, (deploy_to_k3s ⟨.ok, .ok, .ok⟩ "img" "a b").1 =
      .error (.valueError m)) ∧
    (deploy_to_k3s ⟨.ok, .ok, .ok⟩ "img" "a b").2 = [] := by
  have h := C5_validation_rejects_before_cluster_call ⟨.ok, .ok, .ok⟩ "img" "a b"
  have hsp : ' ' ∈ ("a b" : String).data := by decide
  have hm := h.2 hsp
  exact ⟨hsp, hm, (h.1 (Or.inr (Or.inr hm))).1, (h.1 (Or.inr (Or.inr hm))).2⟩

/-- C10: every pipeline-generated deployment name (prefix "test-deploy-"
followed by the digits-only timestamp) satisfies the deployer's validation
pattern, and the generated image name is non-empty, so a call of the
deployer with pipeline-generated names always reaches the cluster API call
and never returns a `ValueError`: the validation-error branch is
unreachable from the endpoint. -/
theorem C10_generated_names_never_hit_validation
    (o : ClusterOracle) (t : TimeTuple) :
    reMatchNamePattern (deploymentNameOf t) = true ∧
    ¬ (imageNameOf t = "") ∧
    (deploy_to_k3s o (imageNameOf t) (deploymentNameOf t)).2 =
      [.apiCreate (deploymentNameOf t)] ∧
    (∀ m, ¬ ((deploy_to_k3s o (imageNameOf t) (deploymentNameOf t)).1 =
      .error (.valueError m))) := by
  obtain ⟨cr, rr, dr⟩ := o
  refine ⟨reMatch_deploymentNameOf t, imageNameOf_ne_empty t, ?_, ?_⟩
  all_goals
    unfold deploy_to_k3s
    rw [if_neg (imageNameOf_ne_empty t), if_neg (deploymentNameOf_ne_empty t),
      reMatch_deploymentNameOf t]
    cases cr with
    | ok => simp
    | apiExc e => by_cases h9 : e.status = 409 <;> simp [h9]

/-- Witness for C10 at a concrete generation time. -/
theorem C10_witness :
    reMatchNamePattern (deploymentNameOf t0) = true ∧
    (deploy_to_k3s ⟨.ok, .ok, .ok⟩ (imageNameOf t0) (deploymentNameOf t0)).2 =
      [.apiCreate (deploymentNameOf t0)] :=
  ⟨(C10_generated_names_never_hit_validation ⟨.ok, .ok, .ok⟩ t0).1,
   (C10_generated_names_never_hit_validation ⟨.ok, .ok, .ok⟩ t0).2.2.1⟩

/-- C6: the generated image name is the fixed prefix "dockerfile-app-"
followed by the second-resolution timestamp, the generated workload name is
the fixed prefix "test-deploy-" followed by the same timestamp, every such
name matches the restricted character class, and two runs whose
second-resolution timestamps differ (as runs started at least one second
apart do) receive distinct image names and distinct workload names. -/
theorem C6_generated_names (t1 t2 : TimeTuple)
    (h1 : t1.Valid) (h2 : t2.Valid) (hne : ¬ (t1 = t2)) :
    imageNameOf t1 = "dockerfile-app-" ++ strftimeYmdHMS t1 ∧
    deploymentNameOf t1 = "test-deploy-" ++ strftimeYmdHMS t1 ∧
    (imageNameOf t1).data.all validNameChar = true ∧
    (deploymentNameOf t1).data.all validNameChar = true ∧
    ¬ (imageNameOf t1 = imageNameOf t2) ∧
    ¬ (deploymentNameOf t1 = deploymentNameOf t2) := by
  refine ⟨rfl, rfl, imageNameOf_all_valid t1, deploymentNameOf_all_valid t1, ?_, ?_⟩
  · intro h
    apply hne
    apply strftimeYmdHMS_inj h1 h2
    have hd := congrArg String.data h
    simp only [imageNameOf, String.data_append] at hd
    exact String.ext (List.append_cancel_left hd)
  · intro h
    apply hne
    apply strftimeYmdHMS_inj h1 h2
    have hd := congrArg String.data h
    simp only [deploymentNameOf, String.data_append] at hd
    exact String.ext (List.append_cancel_left hd)

/-- Witness for C6 at two concrete times one second apart. -/
theorem C6_witness :
    t0.Valid ∧ (⟨2024, 1, 2, 3, 4, 6⟩ : TimeTuple).Valid ∧
    ¬ (t0 = (⟨2024, 1, 2, 3, 4, 6⟩ : TimeTuple)) ∧
    ¬ (imageNameOf t0 = imageNameOf ⟨2024, 1, 2, 3, 4, 6⟩) ∧
    ¬ (deploymentNameOf t0 = deploymentNameOf ⟨2024, 1, 2, 3, 4, 6⟩) := by
  have h := C6_generated_names t0 ⟨2024, 1, 2, 3, 4, 6⟩
    (by decide) (by decide) (by decide)
  exact ⟨by decide, by decide, by decide, h.2.2.2.2.1, h.2.2.2.2.2⟩

/-- C7: on a fully successful run the endpoint returns HTTP 200 with the
human-readable summary message and a details map containing one message for
each of the six executed stages (build, export, import, deploy, delete,
cleanup); the generated image and deployment identifiers appear in the
deploy, delete and cleanup messages; the response carries no error field
(`error = none`). -/
theorem C7_success_response (o : Oracle) (bs ss is2 c1 c2 : String)
    (hf : o.hasDockerfileField = true) (hn : ¬ (o.filename = ""))
    (hs : o.saveExc = none)
    (hb : o.buildOutcome = .result ⟨0, bs⟩)
    (hsv : o.saveOutcome = .result ⟨0, ss⟩)
    (hi : o.importOutcome = .result ⟨0, is2⟩)
    (hcr : o.cluster.createResult = .ok)
    (hrd : o.cluster.readResult = .ok)
    (hdl : o.cluster.deleteResult = .ok)
    (hc1 : o.cleanup.dockerRmiOutcome = .result ⟨0, c1⟩)
    (hc2 : o.cleanup.ctrRemoveOutcome = .result ⟨0, c2⟩) :
    (build_and_deploy o).1 = .response
      ⟨200, none,
       some "Image built, saved, imported into containerd, deployed, and cleaned up successfully.",
       some (.stageMap "Image built successfully."
         "Image saved as tarball successfully."
         "Image loaded into containerd successfully."
         ("Deployment '" ++ deploymentNameOf o.timeTuple ++
           "' successfully created with image '" ++ imageNameOf o.timeTuple ++ "'.")
         ("Deployment '" ++ deploymentNameOf o.timeTuple ++ "' successfully deleted.")
         ("Docker image '" ++ imageNameOf o.timeTuple ++ "' successfully removed." ++
          "; " ++
          ("Containerd image '" ++ imageNameOf o.timeTuple ++
            "' successfully removed.")))⟩ := by
  unfold build_and_deploy pipelineBody
  simp [hf, hn, hs, hb, hsv, hi,
    deploy_to_k3s_ok o.cluster o.timeTuple hcr,
    delete_deployment_ok o.cluster o.timeTuple hrd hdl,
    cleanup_function, hc1, hc2]

/-- Witness for C7 at a concrete fully successful run. -/
theorem C7_witness :
    (build_and_deploy successOracle).1 = .response
      ⟨200, none,
       some "Image built, saved, imported into containerd, deployed, and cleaned up successfully.",
       some (.stageMap "Image built successfully."
         "Image saved as tarball successfully."
         "Image loaded into containerd successfully."
         ("Deployment '" ++ deploymentNameOf successOracle.timeTuple ++
           "' successfully created with image '" ++
           imageNameOf successOracle.timeTuple ++ "'.")
         ("Deployment '" ++ deploymentNameOf successOracle.timeTuple ++
           "' successfully deleted.")
         ("Docker image '" ++ imageNameOf successOracle.timeTuple ++
            "' successfully removed." ++
          "; " ++
          ("Containerd image '" ++ imageNameOf successOracle.timeTuple ++
            "' successfully removed.")))⟩ :=
  C7_success_response successOracle "" "" "" "" ""
    rfl (by decide) rfl rfl rfl rfl rfl rfl rfl rfl rfl

/-- C3: a deploy call that hits a 409 conflict on an already-existing
workload returns the informational "already exists" message instead of
raising, a delete call whose lookup gets a 404 returns the informational
"does not exist" message instead of raising, and a run combining both still
completes with an overall HTTP 200 success response. -/
theorem C3_conflict_and_notfound_informational
    (o : Oracle) (bs ss is2 r1 r2 : String)
    (hf : o.hasDockerfileField = true) (hn : ¬ (o.filename = ""))
    (hs : o.saveExc = none)
    (hb : o.buildOutcome = .result ⟨0, bs⟩)
    (hsv : o.saveOutcome = .result ⟨0, ss⟩)
    (hi : o.importOutcome = .result ⟨0, is2⟩)
    (hcr : o.cluster.createResult = .apiExc ⟨409, r1⟩)
    (hrd : o.cluster.readResult = .apiExc ⟨404, r2⟩) :
    (deploy_to_k3s o.cluster (imageNameOf o.timeTuple)
        (deploymentNameOf o.timeTuple)).1 =
      .ok ("Deployment '" ++ deploymentNameOf o.timeTuple ++
        "' already exists.") ∧
    (delete_deployment o.cluster (deploymentNameOf o.timeTuple)).1 =
      .ok ("Deployment '" ++ deploymentNameOf o.timeTuple ++
        "' does not exist.") ∧
    ∃ cm, (build_and_deploy o).1 = .response
      ⟨200, none,
       some "Image built, saved, imported into containerd, deployed, and cleaned up successfully.",
       some (.stageMap "Image built successfully."
         "Image saved as tarball successfully."
         "Image loaded into containerd successfully."
         ("Deployment '" ++ deploymentNameOf o.timeTuple ++ "' already exists.")
         ("Deployment '" ++ deploymentNameOf o.timeTuple ++ "' does not exist.")
         cm)⟩ := by
  have hdep := deploy_to_k3s_conflict o.cluster o.timeTuple r1 hcr
  have hdel := delete_deployment_read404 o.cluster o.timeTuple r2 hrd
  refine ⟨by rw [hdep], by rw [hdel], ?_⟩
  unfold build_and_deploy pipelineBody
  exact ⟨(cleanup_function o.cleanup (imageNameOf o.timeTuple)).1,
    by simp [hf, hn, hs, hb, hsv, hi, hdep, hdel]⟩

/-- Witness for C3 at a concrete run with a 409 conflict on deploy and a
404 on delete. -/
theorem C3_witness :
    conflictOracle.cluster.createResult = .apiExc ⟨409, "Conflict"⟩ ∧
    conflictOracle.cluster.readResult = .apiExc ⟨404, "Not Found"⟩ ∧
    (deploy_to_k3s conflictOracle.cluster (imageNameOf conflictOracle.timeTuple)
        (deploymentNameOf conflictOracle.timeTuple)).1 =
      .ok ("Deployment '" ++ deploymentNameOf conflictOracle.timeTuple ++
        "' already exists.") ∧
    ∃ cm, (build_and_deploy conflictOracle).1 = .response
      ⟨200, none,
       some "Image built, saved, imported into containerd, deployed, and cleaned up successfully.",
       some (.stageMap "Image built successfully."
         "Image saved as tarball successfully."
         "Image loaded into containerd successfully."
         ("Deployment '" ++ deploymentNameOf conflictOracle.timeTuple ++
           "' already exists.")
         ("Deployment '" ++ deploymentNameOf conflictOracle.timeTuple ++
           "' does not exist.")
         cm)⟩ := by
  have h := C3_conflict_and_notfound_informational conflictOracle
    "" "" "" "Conflict" "Not Found" rfl (by decide) rfl rfl rfl rfl rfl rfl
  exact ⟨rfl, rfl, h.1, h.2.2⟩

/-- C1 counterexample: on a run with zero wait where deployment succeeded,
a reap failure — a non-404 `ApiException` during the workload-deletion
lookup — is not merely captured in the response body: the raised
`RuntimeError` is caught by the generic handler, the outcome flips from
HTTP 200 to HTTP 500, and the image-cleanup stage is never attempted. -/
theorem C1_counterexample :
    reapFailOracle.cluster.createResult = .ok ∧
    reapFailOracle.deployWaitTime = 0 ∧
    (build_and_deploy reapFailOracle).1 =
      .response ⟨500, some "An unexpected error occurred.", none,
        some (.text "Kubernetes API error: Internal Server Error")⟩ ∧
    (build_and_deploy reapFailOracle).2 =
      [.mkTempDir, .saveDockerfile, .dockerBuild, .dockerSave, .ctrImport,
       .apiCreate (deploymentNameOf t0), .sleep 0,
       .apiRead (deploymentNameOf t0), .rmTempDir] := by
  exact ⟨rfl, rfl, by decide, by decide⟩

/-- C1 (amended): for every run in which deployment succeeded, the reaping
is started even when the configured wait duration is zero — the
workload-deletion lookup is attempted right after the sleep; when the
deletion stage does not raise (delete succeeded or the workload was
absent), the outcome is HTTP 200 with no error field whatever the
image-cleanup outcomes, so image-cleanup failures are captured without
flipping success to failure; but a workload-deletion failure other than
not-found raises, is caught by the generic handler, flips the outcome to
HTTP 500, and skips image cleanup. -/
theorem C1_reap_after_successful_deploy (o : Oracle) (bs ss is2 : String)
    (hf : o.hasDockerfileField = true) (hn : ¬ (o.filename = ""))
    (hs : o.saveExc = none)
    (hb : o.buildOutcome = .result ⟨0, bs⟩)
    (hsv : o.saveOutcome = .result ⟨0, ss⟩)
    (hi : o.importOutcome = .result ⟨0, is2⟩)
    (hcr : o.cluster.createResult = .ok ∨
      ∃ e, o.cluster.createResult = .apiExc e ∧ e.status = 409) :
    (Event.apiRead (deploymentNameOf o.timeTuple) ∈ (build_and_deploy o).2 ∧
     Event.sleep o.deployWaitTime ∈ (build_and_deploy o).2) ∧
    (o.cluster.readResult = .ok → o.cluster.deleteResult = .ok →
      ∃ r, (build_and_deploy o).1 = .response r ∧ r.status = 200 ∧
        r.error = none) ∧
    (∀ e, o.cluster.readResult = .apiExc e → ¬ (e.status = 404) →
      (build_and_deploy o).1 =
        .response ⟨500, some "An unexpected error occurred.", none,
          some (.text ("Kubernetes API error: " ++ e.reason))⟩ ∧
      Event.dockerRmi (imageNameOf o.timeTuple) ∉ (build_and_deploy o).2) := by
  obtain ⟨dm, hdm⟩ := deploy_to_k3s_succeeds o.cluster o.timeTuple hcr
  refine ⟨?_, ?_, ?_⟩
  · obtain ⟨res2, ev2, hdel⟩ := delete_deployment_events o.cluster o.timeTuple
    unfold build_and_deploy pipelineBody
    cases res2 with
    | ok m => simp [hf, hn, hs, hb, hsv, hi, hdm, hdel, cleanup_function]
    | error e => simp [hf, hn, hs, hb, hsv, hi, hdm, hdel]
  · intro hr hd
    unfold build_and_deploy pipelineBody
    refine ⟨⟨200, none,
      some "Image built, saved, imported into containerd, deployed, and cleaned up successfully.",
      some (.stageMap "Image built successfully."
        "Image saved as tarball successfully."
        "Image loaded into containerd successfully."
        dm
        ("Deployment '" ++ deploymentNameOf o.timeTuple ++ "' successfully deleted.")
        (cleanup_function o.cleanup (imageNameOf o.timeTuple)).1)⟩, ?_, rfl, rfl⟩
    simp [hf, hn, hs, hb, hsv, hi, hdm,
      delete_deployment_ok o.cluster o.timeTuple hr hd]
  · intro e hr h404
    have hdel := delete_deployment_readFail o.cluster o.timeTuple e hr h404
    unfold build_and_deploy pipelineBody
    constructor
    · simp [hf, hn, hs, hb, hsv, hi, hdm, hdel, PyExc.str]
    · simp [hf, hn, hs, hb, hsv, hi, hdm, hdel]

/-- Witness for C1 (amended) at a concrete run with zero wait whose two
image-cleanup attempts both fail, yet the outcome stays HTTP 200. -/
theorem C1_witness :
    Event.apiRead (deploymentNameOf cleanupFailOracle.timeTuple) ∈
      (build_and_deploy cleanupFailOracle).2 ∧
    Event.sleep 0 ∈ (build_and_deploy cleanupFailOracle).2 ∧
    ∃ r, (build_and_deploy cleanupFailOracle).1 = .response r ∧
      r.status = 200 ∧ r.error = none := by
  have h := C1_reap_after_successful_deploy cleanupFailOracle "" "" ""
    rfl (by decide) rfl rfl rfl rfl (Or.inl rfl)
  exact ⟨h.1.1, h.1.2, h.2.1 rfl rfl⟩

end K3sApp
